import Mathlib

/-!
Verification of the JSON-RPC reverse proxy (`app/proxy/proxy.go`).

The development shallowly embeds the `Handle`, `HandleCORS` and `GetAuthError`
functions of the proxy package.  External collaborators that live in other
packages of the repository (auth resolution, method classification, the SDK
router, the backend call itself, serialization) are modelled as oracle fields
of an environment record, so that the control flow of `Handle` itself — the
code under verification — is reproduced faithfully.
-/

namespace Proxy

/-- Minimal JSON value type, enough to express JSON-RPC envelopes. -/
inductive Json
  | null
  | num (n : Int)
  | str (s : String)
  | obj (fields : List (String × Json))

/-- Embeds `models.User`; only the `ID` field is used by the proxy package. -/
structure User where
  ID : Int
  deriving DecidableEq, Repr

/-- Classified outcome of the error returned by `auth.FromRequest`:
`noAuthInfo` stands for any error `e` with `errors.Is(e, auth.ErrNoAuthInfo)`,
`other` for every other non-nil error, carrying its message. -/
inductive AuthErr
  | noAuthInfo
  | other (msg : String)
  deriving DecidableEq, Repr

/-- Message of a resolution error, as `err.Error()` would render it. -/
def AuthErr.message : AuthErr → String
  | .noAuthInfo => "no auth info"
  | .other m => m

/-- Errors producible by `GetAuthError`: `authRequired` embeds
`rpcerrors.NewAuthRequiredError()`, `forbidden` embeds
`rpcerrors.NewForbiddenError(err)` with the wrapped message, and `unknown`
embeds the final `errors.Err("unknown auth error")` fallback. -/
inductive AuthGateError
  | authRequired
  | forbidden (msg : String)
  | unknown (msg : String)
  deriving DecidableEq, Repr

/-- Embeds `GetAuthError` (proxy.go lines 182-196): the guard
`err == nil && user != nil` returns nil; then the chain
`errors.Is(err, auth.ErrNoAuthInfo)` / `err != nil` / `user == nil`
is tried in order, with the unreachable fallback last. -/
def GetAuthError (user : Option User) (err : Option AuthErr) : Option AuthGateError :=
  if err = none ∧ user ≠ none then
    none
  else if err = some .noAuthInfo then
    some .authRequired
  else if h : err ≠ none then
    some (.forbidden ((err.get (Option.ne_none_iff_isSome.mp h)).message))
  else if user = none then
    some (.forbidden "must authenticate")
  else
    some (.unknown "unknown auth error")

/-- Failure kinds, one per `metrics.FailureKind*` constant used by `Handle`. -/
inductive FailureKind
  | client
  | clientJSON
  | auth
  | net
  | rpcJSON
  | rpc
  deriving DecidableEq, Repr

/-- One metric observation.  `overall` embeds an `Observe` on
`ProxyE2ECallDurations` (labels: method, endpoint); `failed` embeds an
`Observe` on `ProxyE2ECallFailedDurations` (labels: method, endpoint, kind). -/
inductive Observation
  | overall (method endpoint : String)
  | failed (method endpoint : String) (kind : FailureKind)
  deriving DecidableEq, Repr

/-- Embeds `observer.observeFailure` (proxy.go lines 44-48): one overall
duration observation followed by one failure observation. -/
def observeFailureObs (method endpoint : String) (kind : FailureKind) : List Observation :=
  [.overall method endpoint, .failed method endpoint kind]

/-- Embeds `observer.observeSuccess` (proxy.go lines 50-53): one overall
duration observation only. -/
def observeSuccessObs (method endpoint : String) : List Observation :=
  [.overall method endpoint]

/-- Embeds `jsonrpc.RPCRequest`; the fields `Handle` reads. -/
structure RPCRequest where
  Method : String
  Params : Option Json
  ID : Int

/-- Embeds `jsonrpc.RPCError` carried in a backend response. -/
structure RPCError where
  Code : Int
  Message : String

/-- Embeds `jsonrpc.RPCResponse` as returned by `Caller.Call`. -/
structure RPCResponse where
  JSONRPC : String
  ID : Int
  Result : Option Json
  Error : Option RPCError

/-- Modelled from the spec: the `rpcerrors` package is not under `src/`;
per section 7 every failure kind is converted into a JSON-RPC-shaped error
envelope (an object with `jsonrpc`, `error {code, message}` and `id`). -/
def rpcErrorJSON (code : Int) (message : String) : Json :=
  .obj [("jsonrpc", .str "2.0"),
        ("error", .obj [("code", .num code), ("message", .str message)]),
        ("id", .null)]

/-- Modelled from the spec: `rpcerrors.NewJSONParseError(e).JSON()`
(parse-error envelope). -/
def NewJSONParseErrorJSON (msg : String) : Json :=
  rpcErrorJSON (-32700) msg

/-- Modelled from the spec: `rpcerrors.NewInternalError(e).JSON()`
(internal/serialization-error envelope). -/
def NewInternalErrorJSON (msg : String) : Json :=
  rpcErrorJSON (-32080) msg

/-- Modelled from the spec: `rpcerrors.ErrorToJSON` renders an auth-gate
error as a JSON-RPC error envelope. -/
def ErrorToJSON : AuthGateError → Json
  | .authRequired => rpcErrorJSON (-32084) "authentication required"
  | .forbidden m => rpcErrorJSON (-32085) m
  | .unknown m => rpcErrorJSON (-32603) m

/-- Modelled from the spec: `rpcerrors.ToJSON` renders a backend call error
(network error surfaced as a generic proxy error) as an envelope. -/
def ToJSON (msg : String) : Json :=
  rpcErrorJSON (-32603) msg

/-- Modelled from the spec: `responses.JSONRPCSerialize` (not under `src/`)
encodes a JSON-RPC response object carrying `result` or `error` with the
matching `id` (section 6). -/
def JSONRPCSerialize (r : RPCResponse) : Json :=
  .obj ([("jsonrpc", .str r.JSONRPC), ("id", .num r.ID)] ++
    (match r.Error with
     | some e => [("error", .obj [("code", .num e.Code), ("message", .str e.Message)])]
     | none => [("result", r.Result.getD .null)]))

/-- Checks that a JSON value is a JSON-RPC error envelope: an object with a
`jsonrpc` version field and an `error` member, and no `result` member. -/
def isErrorEnvelope : Json → Bool
  | .obj fields =>
      fields.any (fun p => p.1 = "jsonrpc") &&
      fields.any (fun p => p.1 = "error") &&
      !(fields.any (fun p => p.1 = "result"))
  | _ => false

/-- Modelled from the spec: `sdkrouter.Router.RandomServer` (not under
`src/`) picks a backend uniformly from the current live set (section 4.1
`pickRandom`); the uniform randomness source is abstracted as the index
`k`, reduced modulo the pool size. -/
def RandomServer (servers : List String) (k : Nat) : String :=
  servers.getD (k % servers.length) ""

/-- State of the inbound request body: `missing` embeds `r.Body == nil`,
`readError` a failing `ioutil.ReadAll`, `content` a successful read. -/
inductive Body
  | missing
  | readError (msg : String)
  | content (bytes : String)

/-- Environment of one request: the oracle behavior of every external
collaborator `Handle` consults, plus the request itself. -/
structure Env where
  /-- The inbound request body (`r.Body` / `ioutil.ReadAll`). -/
  body : Body
  /-- Oracle for `json.Unmarshal` into `jsonrpc.RPCRequest`; `none` is an
  unmarshaling error. -/
  parse : String → Option RPCRequest
  /-- The user returned by `auth.FromRequest(r)`. -/
  authUser : Option User
  /-- The error returned by `auth.FromRequest(r)`. -/
  authErr : Option AuthErr
  /-- Oracle for `query.MethodRequiresWallet(method, params)`. -/
  methodRequiresWallet : String → Option Json → Bool
  /-- Oracle for `query.MethodAcceptsWallet(method)`. -/
  methodAcceptsWallet : String → Bool
  /-- Oracle for `sdkrouter.GetSDKAddress(user)`: the sticky backend
  address for the user, empty string when absent. -/
  sdkAddressFor : Option User → String
  /-- Live backend pool of `sdkrouter.FromRequest(r)`. -/
  routerServers : List String
  /-- Randomness consumed by `RandomServer`. -/
  randomIndex : Nat
  /-- Oracle for `cache.IsOnRequest(r)`. -/
  cacheOnRequest : Bool
  /-- Oracle for `Caller.Call` at a given backend address: a transport-level
  error message or a structured JSON-RPC response. -/
  call : String → RPCRequest → Except String RPCResponse
  /-- Oracle for a `responses.JSONRPCSerialize` failure (`none` = success). -/
  serializeErr : Option String

/-- Everything `Handle` did for one request: the explicit status code
written (if any), the single body written, the metric observations, and
whether/how the `Caller` was constructed and the backend invoked. -/
structure HandleResult where
  status : Option Nat
  written : Json
  observations : List Observation
  callerConstructed : Bool
  hooksRegistered : Bool
  backendCalled : Bool
  bindingCreated : Bool
  callerAddress : Option String
  callerUserID : Option Int

/-- Embeds proxy.go lines 105-108: `userID` stays 0 unless the method
accepts a wallet and a user was resolved. -/
def chosenUserID (e : Env) (req : RPCRequest) : Int :=
  match e.authUser with
  | some u => if e.methodAcceptsWallet req.Method then u.ID else 0
  | none => 0

/-- Embeds proxy.go lines 110-114: the sticky address from
`sdkrouter.GetSDKAddress(user)`, else a random live backend. -/
def chosenAddress (e : Env) : String :=
  let a := e.sdkAddressFor e.authUser
  if a = "" then RandomServer e.routerServers e.randomIndex else a

/-- Embeds proxy.go lines 95-103: the auth gate is consulted only when the
method requires a wallet. -/
def authGate (e : Env) (req : RPCRequest) : Option AuthGateError :=
  if e.methodRequiresWallet req.Method req.Params then
    GetAuthError e.authUser e.authErr
  else
    none

/-- Embeds `Handle` (proxy.go lines 56-171), mirroring its early-return
control flow branch by branch. -/
def Handle (e : Env) : HandleResult :=
  match e.body with
  | .missing =>
      { status := some 400
        written := NewJSONParseErrorJSON "empty request body"
        observations := observeFailureObs "" "" .client
        callerConstructed := false, hooksRegistered := false
        backendCalled := false, bindingCreated := false
        callerAddress := none, callerUserID := none }
  | .readError _ =>
      { status := some 400
        written := NewJSONParseErrorJSON "error reading request body"
        observations := observeFailureObs "" "" .client
        callerConstructed := false, hooksRegistered := false
        backendCalled := false, bindingCreated := false
        callerAddress := none, callerUserID := none }
  | .content bytes =>
      match e.parse bytes with
      | none =>
          { status := none
            written := NewJSONParseErrorJSON "error unmarshaling request body"
            observations := observeFailureObs "" "" .clientJSON
            callerConstructed := false, hooksRegistered := false
            backendCalled := false, bindingCreated := false
            callerAddress := none, callerUserID := none }
      | some rpcReq =>
          match authGate e rpcReq with
          | some authErr =>
              { status := none
                written := ErrorToJSON authErr
                observations := observeFailureObs rpcReq.Method "" .auth
                callerConstructed := false, hooksRegistered := false
                backendCalled := false, bindingCreated := false
                callerAddress := none, callerUserID := none }
          | none =>
              let userID := chosenUserID e rpcReq
              let sdkAddress := chosenAddress e
              match e.call sdkAddress rpcReq with
              | .error errMsg =>
                  { status := none
                    written := ToJSON errMsg
                    observations := observeFailureObs rpcReq.Method sdkAddress .net
                    callerConstructed := true, hooksRegistered := true
                    backendCalled := true, bindingCreated := false
                    callerAddress := some sdkAddress, callerUserID := some userID }
              | .ok rpcRes =>
                  match e.serializeErr with
                  | some msg =>
                      { status := none
                        written := NewInternalErrorJSON msg
                        observations := observeFailureObs rpcReq.Method sdkAddress .rpcJSON
                        callerConstructed := true, hooksRegistered := true
                        backendCalled := true, bindingCreated := false
                        callerAddress := some sdkAddress, callerUserID := some userID }
                  | none =>
                      match rpcRes.Error with
                      | some _ =>
                          { status := none
                            written := JSONRPCSerialize rpcRes
                            observations := observeFailureObs rpcReq.Method sdkAddress .rpc
                            callerConstructed := true, hooksRegistered := true
                            backendCalled := true, bindingCreated := false
                            callerAddress := some sdkAddress, callerUserID := some userID }
                      | none =>
                          { status := none
                            written := JSONRPCSerialize rpcRes
                            observations := observeSuccessObs rpcReq.Method sdkAddress
                            callerConstructed := true, hooksRegistered := true
                            backendCalled := true, bindingCreated := false
                            callerAddress := some sdkAddress, callerUserID := some userID }

/-- Response assembled by `HandleCORS`: status, headers, and written body
(`none` — the handler writes no body). -/
structure CORSResponse where
  status : Nat
  headers : List (String × String)
  responseBody : Option Json

/-- Embeds `HandleCORS` (proxy.go lines 174-180); `tokenHeader` stands for
the external constant `wallet.TokenHeader`. -/
def HandleCORS (tokenHeader : String) : CORSResponse :=
  { status := 200
    headers :=
      [("Access-Control-Max-Age", "7200"),
       ("Access-Control-Allow-Origin", "*"),
       ("Access-Control-Allow-Headers",
        tokenHeader ++ ", Origin, X-Requested-With, Content-Type, Accept")]
    responseBody := none }

/-- Modelled from the spec: state of one cache fingerprint inside
`getOrCompute` (section 4.2, cache package not under `src/`): no entry,
a computation in flight, or a completed result. -/
inductive SFCache (α : Type)
  | idle
  | inflight
  | done (r : α)
  deriving DecidableEq, Repr

/-- Modelled from the spec: local progress of one concurrent requester of
the same fingerprint: not yet arrived, elected sole computer, blocked
waiting on the in-flight computation, or finished with a result. -/
inductive SFProc (α : Type)
  | start
  | computing
  | waiting
  | finished (r : α)
  deriving DecidableEq, Repr

/-- Modelled from the spec: global state of `N` concurrent `getOrCompute`
callers for one fingerprint, with a counter of backend invocations. -/
structure SFSys (n : Nat) (α : Type) where
  cache : SFCache α
  procs : Fin n → SFProc α
  computes : Nat

/-- Initial state: fingerprint absent, every requester about to call
`getOrCompute`, zero backend calls issued. -/
def SFInit (n : Nat) (α : Type) : SFSys n α :=
  { cache := .idle, procs := fun _ => .start, computes := 0 }

/-- Modelled from the spec (sections 4.2 and 5): interleaving semantics of
single-flight `getOrCompute`.  An arriving requester either becomes the
sole computer (when no entry and nothing in flight), joins the wait list
(when a computation is in flight), or takes the completed result; the
computer finishes by publishing `compute`; a waiter wakes once the result
is published.  `compute` is the (success-or-failure) outcome of the one
backend call. -/
inductive SFStep {n : Nat} {α : Type} (compute : α) : SFSys n α → SFSys n α → Prop
  | beginCompute (s : SFSys n α) (i : Fin n)
      (hp : s.procs i = .start) (hc : s.cache = .idle) :
      SFStep compute s
        { cache := .inflight
          procs := Function.update s.procs i .computing
          computes := s.computes + 1 }
  | joinWait (s : SFSys n α) (i : Fin n)
      (hp : s.procs i = .start) (hc : s.cache = .inflight) :
      SFStep compute s
        { s with procs := Function.update s.procs i .waiting }
  | hitDone (s : SFSys n α) (i : Fin n) (r : α)
      (hp : s.procs i = .start) (hc : s.cache = .done r) :
      SFStep compute s
        { s with procs := Function.update s.procs i (.finished r) }
  | finishCompute (s : SFSys n α) (i : Fin n)
      (hp : s.procs i = .computing) :
      SFStep compute s
        { cache := .done compute
          procs := Function.update s.procs i (.finished compute)
          computes := s.computes }
  | wake (s : SFSys n α) (i : Fin n) (r : α)
      (hp : s.procs i = .waiting) (hc : s.cache = .done r) :
      SFStep compute s
        { s with procs := Function.update s.procs i (.finished r) }

/-- Invariant of the single-flight system: the backend is invoked exactly
once as soon as the fingerprint leaves the idle state, the published result
is the one computation's outcome, and every finished requester holds it. -/
def SFInv {n : Nat} {α : Type} (compute : α) (s : SFSys n α) : Prop :=
  (s.cache = .idle → s.computes = 0 ∧ ∀ i, s.procs i = .start) ∧
  (s.cache ≠ .idle → s.computes = 1) ∧
  (∀ r, s.cache = .done r → r = compute) ∧
  (∀ i, s.procs i = .computing → s.cache = .inflight) ∧
  (∀ i r, s.procs i = .finished r → r = compute) ∧
  (∀ i j, s.procs i = .computing → s.procs j = .computing → i = j)

theorem SFInv_init {n : Nat} {α : Type} (compute : α) : SFInv compute (SFInit n α) := by
  refine ⟨fun _ => ⟨rfl, fun _ => rfl⟩, ?_, ?_, ?_, ?_, ?_⟩
  · intro h; exact absurd rfl h
  · intro r h; simp [SFInit] at h
  · intro i h; simp [SFInit] at h
  · intro i r h; simp [SFInit] at h
  · intro i j hi _; simp [SFInit] at hi

/-- Recognizes a failure observation (`ProxyE2ECallFailedDurations`). -/
def isFailedObs : Observation → Bool
  | .failed _ _ _ => true
  | .overall _ _ => false

/-- A successful backend response with an empty result. -/
def okResponse : RPCResponse :=
  { JSONRPC := "2.0", ID := 1, Result := some .null, Error := none }

/-- A transport-level success whose JSON-RPC body carries an error. -/
def errResponse : RPCResponse :=
  { JSONRPC := "2.0", ID := 1, Result := none
    Error := some { Code := -1, Message := "boom" } }

/-- Request environment of a wallet-gated call with no credentials. -/
def envAuthDenied : Env :=
  { body := .content "x"
    parse := fun _ => some { Method := "wallet_send", Params := none, ID := 1 }
    authUser := none
    authErr := some .noAuthInfo
    methodRequiresWallet := fun _ _ => true
    methodAcceptsWallet := fun _ => true
    sdkAddressFor := fun _ => ""
    routerServers := ["sdk1"]
    randomIndex := 0
    cacheOnRequest := false
    call := fun _ _ => .ok okResponse
    serializeErr := none }

/-- Request environment whose inbound body is absent. -/
def envEmptyBody : Env :=
  { envAuthDenied with body := .missing }

/-- Request environment whose backend answers with a JSON-RPC error body. -/
def envRPCError : Env :=
  { body := .content "x"
    parse := fun _ => some { Method := "resolve", Params := none, ID := 1 }
    authUser := none
    authErr := none
    methodRequiresWallet := fun _ _ => false
    methodAcceptsWallet := fun _ => false
    sdkAddressFor := fun _ => ""
    routerServers := ["sdk1"]
    randomIndex := 0
    cacheOnRequest := false
    call := fun _ _ => .ok errResponse
    serializeErr := none }

/-- Anonymous request environment with a two-backend pool. -/
def envAnonPool : Env :=
  { envRPCError with
    routerServers := ["sdk1", "sdk2"]
    randomIndex := 3
    call := fun _ _ => .ok okResponse }

/-- Request environment of an authenticated user calling a method that does
not accept a wallet; the router holds a sticky assignment for the user. -/
def envAuthNonAccept : Env :=
  { body := .content "x"
    parse := fun _ => some { Method := "resolve", Params := none, ID := 1 }
    authUser := some { ID := 7 }
    authErr := none
    methodRequiresWallet := fun _ _ => false
    methodAcceptsWallet := fun _ => false
    sdkAddressFor := fun u => match u with | some _ => "sticky" | none => ""
    routerServers := ["sdk1"]
    randomIndex := 0
    cacheOnRequest := false
    call := fun _ _ => .ok okResponse
    serializeErr := none }

/-- The same request issued anonymously. -/
def envAnonTwin : Env :=
  { envAuthNonAccept with authUser := none }

/-- Terminal state of the two-step single-flight demonstration run. -/
def sfEndState : SFSys 1 Nat :=
  { cache := .done 7
    procs := Function.update
      (Function.update (SFInit 1 Nat).procs 0 SFProc.computing) 0 (SFProc.finished 7)
    computes := 1 }

theorem SFSys.cache_mk {n : Nat} {α : Type} (c : SFCache α) (p : Fin n → SFProc α) (m : Nat) :
    (SFSys.mk c p m).cache = c := rfl

theorem SFSys.procs_mk {n : Nat} {α : Type} (c : SFCache α) (p : Fin n → SFProc α) (m : Nat)
    (j : Fin n) : (SFSys.mk c p m).procs j = p j := rfl

theorem SFSys.computes_mk {n : Nat} {α : Type} (c : SFCache α) (p : Fin n → SFProc α) (m : Nat) :
    (SFSys.mk c p m).computes = m := rfl

theorem SFInv_step {n : Nat} {α : Type} {compute : α} {s t : SFSys n α}
    (hstep : SFStep compute s t) (hinv : SFInv compute s) : SFInv compute t := by
  obtain ⟨h1, h2, h3, h4, h5, h6⟩ := hinv
  cases hstep with
  | beginCompute i hp hc =>
      obtain ⟨hz, hall⟩ := h1 hc
      refine ⟨?_, ?_, ?_, ?_, ?_, ?_⟩
      · intro h; rw [SFSys.cache_mk] at h; cases h
      · intro _; rw [SFSys.computes_mk, hz]
      · intro r h; rw [SFSys.cache_mk] at h; cases h
      · intro j _; rw [SFSys.cache_mk]
      · intro j r hj
        rw [SFSys.procs_mk] at hj
        rcases eq_or_ne j i with rfl | hne
        · rw [Function.update_same] at hj; cases hj
        · rw [Function.update_noteq hne, hall j] at hj; cases hj
      · intro j k hj hk
        rw [SFSys.procs_mk] at hj hk
        have hji : j = i := by
          by_contra hne
          rw [Function.update_noteq hne, hall j] at hj; cases hj
        have hki : k = i := by
          by_contra hne
          rw [Function.update_noteq hne, hall k] at hk; cases hk
        rw [hji, hki]
  | joinWait i hp hc =>
      refine ⟨?_, ?_, ?_, ?_, ?_, ?_⟩
      · intro h; rw [SFSys.cache_mk, hc] at h; cases h
      · intro _; rw [SFSys.computes_mk]
        exact h2 (by rw [hc]; intro h; cases h)
      · intro r h; rw [SFSys.cache_mk, hc] at h; cases h
      · intro j hj
        rw [SFSys.cache_mk, hc]
      · intro j r hj
        rw [SFSys.procs_mk] at hj
        rcases eq_or_ne j i with rfl | hne
        · rw [Function.update_same] at hj; cases hj
        · rw [Function.update_noteq hne] at hj; exact h5 j r hj
      · intro j k hj hk
        rw [SFSys.procs_mk] at hj hk
        rcases eq_or_ne j i with rfl | hnej
        · rw [Function.update_same] at hj; cases hj
        · rcases eq_or_ne k i with rfl | hnek
          · rw [Function.update_same] at hk; cases hk
          · rw [Function.update_noteq hnej] at hj
            rw [Function.update_noteq hnek] at hk
            exact h6 j k hj hk
  | hitDone i r hp hc =>
      refine ⟨?_, ?_, ?_, ?_, ?_, ?_⟩
      · intro h; rw [SFSys.cache_mk, hc] at h; cases h
      · intro _; rw [SFSys.computes_mk]
        exact h2 (by rw [hc]; intro h; cases h)
      · intro r' h; rw [SFSys.cache_mk] at h; exact h3 r' h
      · intro j hj
        rw [SFSys.procs_mk] at hj
        rcases eq_or_ne j i with rfl | hne
        · rw [Function.update_same] at hj; cases hj
        · rw [Function.update_noteq hne] at hj
          rw [SFSys.cache_mk]; exact h4 j hj
      · intro j r' hj
        rw [SFSys.procs_mk] at hj
        rcases eq_or_ne j i with rfl | hne
        · rw [Function.update_same] at hj
          cases hj; exact h3 r hc
        · rw [Function.update_noteq hne] at hj; exact h5 j r' hj
      · intro j k hj hk
        rw [SFSys.procs_mk] at hj hk
        rcases eq_or_ne j i with rfl | hnej
        · rw [Function.update_same] at hj; cases hj
        · rcases eq_or_ne k i with rfl | hnek
          · rw [Function.update_same] at hk; cases hk
          · rw [Function.update_noteq hnej] at hj
            rw [Function.update_noteq hnek] at hk
            exact h6 j k hj hk
  | finishCompute i hp =>
      have hinflight := h4 i hp
      refine ⟨?_, ?_, ?_, ?_, ?_, ?_⟩
      · intro h; rw [SFSys.cache_mk] at h; cases h
      · intro _; rw [SFSys.computes_mk]
        exact h2 (by rw [hinflight]; intro h; cases h)
      · intro r h; rw [SFSys.cache_mk] at h
        cases h; rfl
      · intro j hj
        rw [SFSys.procs_mk] at hj
        rcases eq_or_ne j i with rfl | hne
        · rw [Function.update_same] at hj; cases hj
        · rw [Function.update_noteq hne] at hj
          exact absurd (h6 j i hj hp) hne
      · intro j r hj
        rw [SFSys.procs_mk] at hj
        rcases eq_or_ne j i with rfl | hne
        · rw [Function.update_same] at hj
          cases hj; rfl
        · rw [Function.update_noteq hne] at hj; exact h5 j r hj
      · intro j k hj hk
        rw [SFSys.procs_mk] at hj hk
        rcases eq_or_ne j i with rfl | hnej
        · rw [Function.update_same] at hj; cases hj
        · rw [Function.update_noteq hnej] at hj
          exact absurd (h6 j i hj hp) hnej
  | wake i r hp hc =>
      refine ⟨?_, ?_, ?_, ?_, ?_, ?_⟩
      · intro h; rw [SFSys.cache_mk, hc] at h; cases h
      · intro _; rw [SFSys.computes_mk]
        exact h2 (by rw [hc]; intro h; cases h)
      · intro r' h; rw [SFSys.cache_mk] at h; exact h3 r' h
      · intro j hj
        rw [SFSys.procs_mk] at hj
        rcases eq_or_ne j i with rfl | hne
        · rw [Function.update_same] at hj; cases hj
        · rw [Function.update_noteq hne] at hj
          rw [SFSys.cache_mk]; exact h4 j hj
      · intro j r' hj
        rw [SFSys.procs_mk] at hj
        rcases eq_or_ne j i with rfl | hne
        · rw [Function.update_same] at hj
          cases hj; exact h3 r hc
        · rw [Function.update_noteq hne] at hj; exact h5 j r' hj
      · intro j k hj hk
        rw [SFSys.procs_mk] at hj hk
        rcases eq_or_ne j i with rfl | hnej
        · rw [Function.update_same] at hj; cases hj
        · rcases eq_or_ne k i with rfl | hnek
          · rw [Function.update_same] at hk; cases hk
          · rw [Function.update_noteq hnej] at hj
            rw [Function.update_noteq hnek] at hk
            exact h6 j k hj hk

theorem SFInv_reachable {n : Nat} {α : Type} {compute : α} {s : SFSys n α}
    (hreach : Relation.ReflTransGen (SFStep compute) (SFInit n α) s) :
    SFInv compute s := by
  induction hreach with
  | refl => exact SFInv_init compute
  | tail _ hstep ih => exact SFInv_step hstep ih

/-- C5: `GetAuthError` classifies an auth outcome into exactly three cases:
a resolved user with no error yields no error; an error equal to
`auth.ErrNoAuthInfo` yields an auth-required error; any other non-nil
error, or a nil user without a no-auth-info error, yields a forbidden
error — and every input falls into one of the three cases. -/
theorem getAuthError_three_way_classification (user : Option User) (err : Option AuthErr) :
    ((err = none ∧ user ≠ none) → GetAuthError user err = none) ∧
    (err = some .noAuthInfo → GetAuthError user err = some .authRequired) ∧
    (((err ≠ none ∧ err ≠ some .noAuthInfo) ∨ (user = none ∧ err ≠ some .noAuthInfo)) →
      ∃ m, GetAuthError user err = some (.forbidden m)) ∧
    (GetAuthError user err = none ∨
      GetAuthError user err = some .authRequired ∨
      ∃ m, GetAuthError user err = some (.forbidden m)) := by
  cases user <;> rcases err with _ | e <;> try cases e <;>
    simp [GetAuthError, AuthErr.message]
  all_goals simp [GetAuthError, AuthErr.message]

/-- C9: `GetAuthError` returns nil exactly when the resolution error is nil
and the user is non-nil, and its final fallback branch returning an
unknown-auth error is unreachable for every input. -/
theorem getAuthError_nil_iff (user : Option User) (err : Option AuthErr) :
    (GetAuthError user err = none ↔ (err = none ∧ user ≠ none)) ∧
    (∀ m, GetAuthError user err ≠ some (.unknown m)) := by
  cases user <;> rcases err with _ | e <;> try cases e <;>
    simp [GetAuthError, AuthErr.message]
  all_goals simp [GetAuthError, AuthErr.message]

/-- C8: `HandleCORS` responds to every pre-flight request with status 200,
no body, and permissive CORS headers with the wildcard allowed origin,
independent of the JSON-RPC handling path. -/
theorem handleCORS_preflight (tokenHeader : String) :
    (HandleCORS tokenHeader).status = 200 ∧
    (HandleCORS tokenHeader).responseBody = none ∧
    ("Access-Control-Allow-Origin", "*") ∈ (HandleCORS tokenHeader).headers := by
  refine ⟨rfl, rfl, ?_⟩
  simp [HandleCORS]

/-- C3: on every return path `Handle` emits exactly one overall duration
observation tagged by method and backend address (one `observeSuccess` or
`observeFailure` call), and on every failure path exactly one additional
observation tagged by method, backend address and failure kind. -/
theorem handle_observes_exactly_once (e : Env) :
    ∃ m ep, (Handle e).observations = observeSuccessObs m ep ∨
      ∃ k, (Handle e).observations = observeFailureObs m ep k := by
  unfold Handle
  dsimp only
  repeat' split
  all_goals first
    | exact ⟨_, _, Or.inr ⟨_, rfl⟩⟩
    | exact ⟨_, _, Or.inl rfl⟩

/-- C1: for a request whose method requires a wallet and whose user
resolution fails the auth gate, `Handle` writes the terminal auth error,
emits the auth failure observation, and returns without constructing a
`Caller`, registering hooks, or invoking the backend. -/
theorem handle_wallet_required_auth_terminal (e : Env) (b : String) (req : RPCRequest)
    (ae : AuthGateError)
    (hb : e.body = .content b) (hp : e.parse b = some req)
    (hw : e.methodRequiresWallet req.Method req.Params = true)
    (ha : GetAuthError e.authUser e.authErr = some ae) :
    (Handle e).written = ErrorToJSON ae ∧
    (Handle e).observations = observeFailureObs req.Method "" .auth ∧
    (Handle e).callerConstructed = false ∧
    (Handle e).hooksRegistered = false ∧
    (Handle e).backendCalled = false := by
  have hg : authGate e req = some ae := by
    simp [authGate, hw, ha]
  simp [Handle, hb, hp, hg]

/-- C1 witness: a concrete wallet-gated request with no auth info. -/
theorem handle_wallet_required_auth_terminal_witness :
    (Handle envAuthDenied).written = ErrorToJSON .authRequired ∧
    (Handle envAuthDenied).observations = observeFailureObs "wallet_send" "" .auth ∧
    (Handle envAuthDenied).callerConstructed = false ∧
    (Handle envAuthDenied).hooksRegistered = false ∧
    (Handle envAuthDenied).backendCalled = false :=
  handle_wallet_required_auth_terminal envAuthDenied "x"
    { Method := "wallet_send", Params := none, ID := 1 } .authRequired
    rfl rfl rfl (by simp [GetAuthError, envAuthDenied])

/-- C4: when the backend call succeeds at the transport level but the
JSON-RPC response carries an error, `Handle` writes the serialized backend
response unmodified, records the call under the RPC-error failure kind, and
sets no error status of its own. -/
theorem handle_rpc_error_passthrough (e : Env) (b : String) (req : RPCRequest)
    (res : RPCResponse) (er : RPCError)
    (hb : e.body = .content b) (hp : e.parse b = some req)
    (hg : authGate e req = none)
    (hc : e.call (chosenAddress e) req = .ok res)
    (hs : e.serializeErr = none)
    (he : res.Error = some er) :
    (Handle e).written = JSONRPCSerialize res ∧
    (Handle e).observations = observeFailureObs req.Method (chosenAddress e) .rpc ∧
    (Handle e).status = none := by
  simp [Handle, hb, hp, hg, hc, hs, he]

/-- C4 witness: a concrete request whose backend reports a domain error. -/
theorem handle_rpc_error_passthrough_witness :
    (Handle envRPCError).written = JSONRPCSerialize errResponse ∧
    (Handle envRPCError).observations =
      observeFailureObs "resolve" (chosenAddress envRPCError) .rpc ∧
    (Handle envRPCError).status = none :=
  handle_rpc_error_passthrough envRPCError "x"
    { Method := "resolve", Params := none, ID := 1 } errResponse
    { Code := -1, Message := "boom" }
    rfl rfl rfl rfl rfl rfl

/-- C6: on every failure path of `Handle` — empty body, unreadable body,
unparseable JSON, auth error, backend call error, serialization error,
backend RPC error — the body written to the client is a well-formed
JSON-RPC error envelope, never a bare non-JSON error body. -/
theorem handle_failure_writes_error_envelope (e : Env)
    (hf : (Handle e).observations.any isFailedObs = true) :
    isErrorEnvelope (Handle e).written = true := by
  revert hf
  unfold Handle
  dsimp only
  repeat' split
  all_goals intro hf
  all_goals first
    | rfl
    | (simp [observeSuccessObs, isFailedObs] at hf; done)
    | (rename_i ae heq; cases ae <;> rfl)
    | (rename_i er heq; simp [JSONRPCSerialize, isErrorEnvelope, heq])

/-- C6 witness: the empty-body failure path writes an envelope. -/
theorem handle_failure_writes_error_envelope_witness :
    ((Handle envEmptyBody).observations.any isFailedObs = true) ∧
    isErrorEnvelope (Handle envEmptyBody).written = true :=
  ⟨rfl, handle_failure_writes_error_envelope envEmptyBody rfl⟩

/-- C7: when the user has no sticky backend assignment (in particular for
every anonymous request), `Handle` picks the backend by the router's random
draw over the live pool — a draw whose outcomes, as the random index ranges
over the pool positions, enumerate exactly the live pool — the chosen
backend is a member of that pool, and no user-to-backend binding is
created. -/
theorem handle_anonymous_random_routing (e : Env) (b : String) (req : RPCRequest)
    (hb : e.body = .content b) (hp : e.parse b = some req)
    (hg : authGate e req = none)
    (hanon : e.sdkAddressFor e.authUser = "")
    (hne : e.routerServers ≠ []) :
    (Handle e).callerAddress = some (RandomServer e.routerServers e.randomIndex) ∧
    RandomServer e.routerServers e.randomIndex ∈ e.routerServers ∧
    (Handle e).bindingCreated = false ∧
    List.ofFn (fun i : Fin e.routerServers.length =>
      RandomServer e.routerServers i) = e.routerServers := by
  have hlen : 0 < e.routerServers.length := List.length_pos.mpr hne
  have hmod : e.randomIndex % e.routerServers.length < e.routerServers.length :=
    Nat.mod_lt _ hlen
  have haddr : chosenAddress e = RandomServer e.routerServers e.randomIndex := by
    simp [chosenAddress, hanon]
  refine ⟨?_, ?_, ?_, ?_⟩
  · unfold Handle
    dsimp only
    simp only [hb, hp, hg, haddr]
    split <;> try rfl
    split <;> try rfl
    split <;> rfl
  · rw [RandomServer, List.getD_eq_getElem _ _ hmod]
    exact List.getElem_mem hmod
  · unfold Handle
    dsimp only
    simp only [hb, hp, hg]
    split <;> try rfl
    split <;> try rfl
    split <;> rfl
  · have hfn : (fun i : Fin e.routerServers.length => RandomServer e.routerServers i) =
        e.routerServers.get := by
      funext i
      rw [RandomServer, Nat.mod_eq_of_lt i.isLt, List.getD_eq_get _ _ i.isLt]
    rw [hfn, List.ofFn_get]

/-- C7 witness: an anonymous request drawing from a two-backend pool. -/
theorem handle_anonymous_random_routing_witness :
    (Handle envAnonPool).callerAddress =
      some (RandomServer envAnonPool.routerServers envAnonPool.randomIndex) ∧
    RandomServer envAnonPool.routerServers envAnonPool.randomIndex ∈
      envAnonPool.routerServers ∧
    (Handle envAnonPool).bindingCreated = false ∧
    List.ofFn (fun i : Fin envAnonPool.routerServers.length =>
      RandomServer envAnonPool.routerServers i) = envAnonPool.routerServers :=
  handle_anonymous_random_routing envAnonPool "x"
    { Method := "resolve", Params := none, ID := 1 }
    rfl rfl rfl rfl (by simp [envAnonPool, envRPCError])

/-- C10 (amended): the `Caller` is constructed with userID 0 unless both
`query.MethodAcceptsWallet` holds and a user was resolved — so an
authenticated user calling a non-wallet-accepting method is processed with
userID 0, identically to an anonymous caller for cache scoping — but the
backend address is still taken from the resolved user via
`sdkrouter.GetSDKAddress(user)`, so backend selection is not identical to
an anonymous caller. -/
theorem caller_userID_zero_unless_accepts_wallet (e : Env) (b : String) (req : RPCRequest)
    (hb : e.body = .content b) (hp : e.parse b = some req)
    (hg : authGate e req = none) :
    (Handle e).callerUserID = some (chosenUserID e req) ∧
    (∀ u, e.authUser = some u → e.methodAcceptsWallet req.Method = false →
      chosenUserID e req = 0) ∧
    (e.authUser = none → chosenUserID e req = 0) ∧
    (Handle e).callerAddress = some (chosenAddress e) := by
  refine ⟨?_, ?_, ?_, ?_⟩
  · unfold Handle
    dsimp only
    simp only [hb, hp, hg]
    split <;> try rfl
    split <;> try rfl
    split <;> rfl
  · intro u hu hacc
    simp [chosenUserID, hu, hacc]
  · intro hu
    simp [chosenUserID, hu]
  · unfold Handle
    dsimp only
    simp only [hb, hp, hg]
    split <;> try rfl
    split <;> try rfl
    split <;> rfl

/-- C10 witness: an authenticated user on a non-wallet-accepting method. -/
theorem caller_userID_zero_unless_accepts_wallet_witness :
    (Handle envAuthNonAccept).callerUserID = some (chosenUserID envAuthNonAccept
      { Method := "resolve", Params := none, ID := 1 }) ∧
    (∀ u, envAuthNonAccept.authUser = some u →
      envAuthNonAccept.methodAcceptsWallet "resolve" = false →
      chosenUserID envAuthNonAccept { Method := "resolve", Params := none, ID := 1 } = 0) ∧
    (envAuthNonAccept.authUser = none →
      chosenUserID envAuthNonAccept { Method := "resolve", Params := none, ID := 1 } = 0) ∧
    (Handle envAuthNonAccept).callerAddress = some (chosenAddress envAuthNonAccept) :=
  caller_userID_zero_unless_accepts_wallet envAuthNonAccept "x"
    { Method := "resolve", Params := none, ID := 1 } rfl rfl rfl

/-- C10 counterexample: the authenticated user of `envAuthNonAccept` and the
anonymous caller of `envAnonTwin` issue the same request to the same
environment and both get userID 0, yet they are routed to different
backends (the sticky assignment versus a random live backend), so the
authenticated request is not processed identically to an anonymous one for
backend binding purposes. -/
theorem caller_routing_differs_from_anonymous_cex :
    (Handle envAuthNonAccept).callerUserID = some 0 ∧
    (Handle envAnonTwin).callerUserID = some 0 ∧
    (Handle envAuthNonAccept).callerAddress = some "sticky" ∧
    (Handle envAnonTwin).callerAddress = some "sdk1" ∧
    (Handle envAuthNonAccept).callerAddress ≠ (Handle envAnonTwin).callerAddress := by
  exact ⟨rfl, rfl, rfl, rfl, by decide⟩

/-- C2: single-flight `getOrCompute` — in every reachable terminal state of
`N` concurrent requesters of one cacheable fingerprint, started with the
fingerprint uncached, exactly one backend computation was issued and every
requester finished with that one computation result, success or failure
alike. -/
theorem getOrCompute_single_flight {α : Type} (compute : α) (n : Nat) (hn : 0 < n)
    (s : SFSys n α)
    (hreach : Relation.ReflTransGen (SFStep compute) (SFInit n α) s)
    (hterm : ∀ i, ∃ r, s.procs i = .finished r) :
    s.computes = 1 ∧ ∀ i, s.procs i = .finished compute := by
  obtain ⟨h1, h2, h3, h4, h5, h6⟩ := SFInv_reachable hreach
  have hall : ∀ i, s.procs i = .finished compute := by
    intro i
    obtain ⟨r, hr⟩ := hterm i
    rw [hr, h5 i r hr]
  refine ⟨?_, hall⟩
  apply h2
  intro hidle
  obtain ⟨_, hstart⟩ := h1 hidle
  have hi0 := hstart ⟨0, hn⟩
  rw [hall ⟨0, hn⟩] at hi0
  cases hi0

/-- C2 witness: one requester, computation result 7, runs begin-compute then
finish-compute and terminates with one backend call and the result. -/
theorem getOrCompute_single_flight_witness :
    sfEndState.computes = 1 ∧ sfEndState.procs 0 = .finished 7 := by
  have hreach : Relation.ReflTransGen (SFStep 7) (SFInit 1 Nat) sfEndState := by
    refine Relation.ReflTransGen.head (SFStep.beginCompute (SFInit 1 Nat) 0 rfl rfl) ?_
    refine Relation.ReflTransGen.head ?_ Relation.ReflTransGen.refl
    exact SFStep.finishCompute _ 0 (Function.update_same (0 : Fin 1) SFProc.computing (SFInit 1 Nat).procs)
  have hterm : ∀ i : Fin 1, ∃ r, sfEndState.procs i = .finished r := by
    intro i
    refine ⟨7, ?_⟩
    have hi : i = 0 := Subsingleton.elim i 0
    rw [hi]
    exact Function.update_same (0 : Fin 1) (SFProc.finished 7)
      (Function.update (SFInit 1 Nat).procs 0 SFProc.computing)
  have h := getOrCompute_single_flight 7 1 Nat.one_pos sfEndState hreach hterm
  exact ⟨h.1, h.2 0⟩

end Proxy
